import Mathlib

/-!
A shallow embedding of `src/screenshot_rt.py`, a batch capture pipeline that
reads a list of Rotten Tomatoes URLs, drives a browser page per URL, extracts
the embedded `media-scorecard-json` payload, normalizes it into a stable
record shape, writes per-URL JSON artifacts and a per-run CSV export.

JSON values are modelled by an inductive `Json` type; Python dictionaries are
association lists; fallible Python code (code that can raise) is modelled by
`Except String`; the browser page is modelled by a structure of response
functions so that every interaction the script performs can independently
succeed or fail.
-/

namespace RtScreens

/-- A JSON value, as produced by Python `json.loads`. -/
inductive Json where
  | null
  | bool (b : Bool)
  | num (n : Int)
  | str (s : String)
  | arr (elems : List Json)
  | obj (fields : List (String × Json))
deriving Repr

/-- Keyed lookup in a JSON object field list, i.e. Python `d.get(k)` returning
`none` when the key is absent. -/
def Json.lookup (fs : List (String × Json)) (k : String) : Option Json :=
  (fs.find? (fun p => p.1 == k)).map Prod.snd

/-- Python truthiness of a JSON value (`bool(x)`), as used by `x or y`. -/
def Json.isTruthy : Json → Bool
  | .null => false
  | .bool b => b
  | .num n => n != 0
  | .str s => s != ""
  | .arr xs => !xs.isEmpty
  | .obj fs => !fs.isEmpty

/-- Python bracket access `j[k]`: raises `KeyError` when the key is missing and
`TypeError` when `j` is not a mapping. -/
def Json.index (j : Json) (k : String) : Except String Json :=
  match j with
  | .obj fs =>
    match Json.lookup fs k with
    | some v => .ok v
    | none => .error ("KeyError: " ++ k)
  | _ => .error "TypeError: value is not subscriptable"

/-- Python `str.strip()`: drop leading and trailing whitespace. -/
def pyStrip (s : String) : String :=
  String.mk (((s.data.dropWhile Char.isWhitespace).reverse.dropWhile
    Char.isWhitespace).reverse)

/-- Python `line.startswith("#")`. -/
def startsWithHash (s : String) : Bool :=
  match s.data with
  | c :: _ => c == '#'
  | [] => false

/-- A character kept verbatim by the regex `[^a-zA-Z0-9_-]+` substitution in
`slugify` (ASCII letters, digits, underscore, hyphen). -/
def isSlugChar (c : Char) : Bool :=
  c.isAlpha || c.isDigit || c == '_' || c == '-'

/-- The regex substitution `re.sub(r"[^a-zA-Z0-9_-]+", "_", s)`: each maximal
run of non-slug characters becomes a single underscore.  The boolean records
whether the previous character was part of a run already replaced, so that
only the first character of a run emits the underscore. -/
def collapseRunsAux : Bool → List Char → List Char
  | _, [] => []
  | prevBad, c :: rest =>
    if isSlugChar c then c :: collapseRunsAux false rest
    else if prevBad then collapseRunsAux true rest
    else '_' :: collapseRunsAux true rest

/-- Python `str.split("/")` on the character list: split at every slash,
keeping empty segments, as Python does for an explicit separator. -/
def splitSlash : List Char → List (List Char)
  | [] => [[]]
  | c :: rest =>
    let r := splitSlash rest
    if c == '/' then [] :: r
    else
      match r with
      | seg :: segs => (c :: seg) :: segs
      | [] => [[c]]

/-- `slugify` from the source: take the last `/`-separated segment of the URL
after stripping trailing slashes, collapse each run of non-identifier
characters to one underscore, and fall back to `"movie"` when empty. -/
def slugify (url : String) : String :=
  let stripped := (url.data.reverse.dropWhile (fun c => c == '/')).reverse
  let seg := ((splitSlash stripped).getLast?).getD []
  let slug := String.mk (collapseRunsAux false seg)
  if slug == "" then "movie" else slug

/-- The lines of the URL file kept by `read_urls`: each line is stripped, and
blank or `#`-prefixed results are skipped. -/
def filteredLines (lines : List String) : List String :=
  (lines.map pyStrip).filter (fun l => !(l == "" || startsWithHash l))

/-- `read_urls` from the source.  The file is modelled as `Option (List
String)`: `none` when `urls.txt` does not exist (then a `FileNotFoundError`
is raised), otherwise the list of its lines. -/
def read_urls : Option (List String) → Except String (List String)
  | none => .error "FileNotFoundError: Missing urls.txt. Create it with one RT URL per line."
  | some lines => .ok (filteredLines lines)

/-! ## Normalizer -/

/-- `pick` from the source: `{k: d.get(k) for k in keys}`.  Calling `.get` on a
value that is not a mapping raises `AttributeError`, hence the `Except`. -/
def pick (d : Json) (keys : List String) : Except String (List (String × Json)) :=
  match d with
  | .obj fs => .ok (keys.map (fun k => (k, (Json.lookup fs k).getD .null)))
  | _ => .error "AttributeError: object has no attribute get"

/-- The success case of `pick` on an actual mapping. -/
def pickFields (fs : List (String × Json)) (keys : List String) : List (String × Json) :=
  keys.map (fun k => (k, (Json.lookup fs k).getD .null))

/-- Python `data.get(key) or {}`: the stored value when present and truthy,
otherwise an empty mapping.  Note that a truthy non-mapping value (for example
a nonzero number) is kept as is. -/
def getOrEmpty (data : List (String × Json)) (key : String) : Json :=
  match Json.lookup data key with
  | none => .obj []
  | some v => if v.isTruthy then v else .obj []

/-- The field names projected into the critics `ScoreBucket`. -/
def criticsKeys : List String :=
  ["score", "scorePercent", "averageRating", "reviewCount", "ratingCount",
   "likedCount", "notLikedCount", "sentiment", "certified", "reviewsPageUrl", "title"]

/-- The field names projected into the audience `ScoreBucket`. -/
def audienceKeys : List String :=
  ["score", "scorePercent", "averageRating", "reviewCount",
   "likedCount", "notLikedCount", "sentiment", "certified", "scoreType",
   "bandedRatingCount", "reviewsPageUrl", "title"]

/-- The field names projected into each overlay sub-breakdown bucket. -/
def overlayPickKeys : List String :=
  ["score", "scorePercent", "averageRating", "reviewCount", "ratingCount",
   "likedCount", "notLikedCount", "scoreType", "bandedRatingCount",
   "sentiment", "certified", "scoreLinkText", "scoreLinkUrl", "reviewsPageUrl", "title"]

/-- The four named sub-breakdowns looked up in the overlay section. -/
def overlayBucketNames : List String :=
  ["criticsAll", "criticsTop", "audienceAll", "audienceVerified"]

/-- The overlay loop of `normalize_scorecard`: a bucket is emitted only for a
sub-breakdown key that is present and maps to an actual mapping. -/
def overlayBuckets (ofs : List (String × Json)) : List (String × Json) :=
  overlayBucketNames.filterMap (fun k =>
    match Json.lookup ofs k with
    | some (.obj bfs) => some (k, Json.obj (pickFields bfs overlayPickKeys))
    | _ => none)

/-- `overlay.get("mediaType") or data.get("mediaType")` from the source. -/
def mediaTypeOf (ofs : List (String × Json)) (data : List (String × Json)) : Json :=
  let fromOverlay := (Json.lookup ofs "mediaType").getD .null
  if fromOverlay.isTruthy then fromOverlay
  else (Json.lookup data "mediaType").getD .null

/-- `normalize_scorecard` from the source: project the raw payload into the
stable `CaptureRecord` shape.  An `Except.error` models a raised exception:
`pick` raises on a truthy non-mapping section value, and a truthy non-mapping
overlay value makes the overlay loop or `overlay.get("mediaType")` raise. -/
def normalize_scorecard (url slug stamp : String) (data : List (String × Json)) :
    Except String Json :=
  let critics := getOrEmpty data "criticsScore"
  let audience := getOrEmpty data "audienceScore"
  let overlayJ := getOrEmpty data "overlay"
  match pick critics criticsKeys with
  | .error e => .error e
  | .ok criticsOut =>
    match pick audience audienceKeys with
    | .error e => .error e
    | .ok audienceOut =>
      match overlayJ with
      | .obj ofs =>
        .ok (.obj [("url", .str url), ("slug", .str slug), ("timestamp_et", .str stamp),
          ("criticsScore", .obj criticsOut), ("audienceScore", .obj audienceOut),
          ("overlay", .obj (overlayBuckets ofs)),
          ("mediaType", mediaTypeOf ofs data),
          ("primaryImageUrl", (Json.lookup data "primaryImageUrl").getD .null),
          ("description", (Json.lookup data "description").getD .null)])
      | _ => .error "TypeError: overlay section is not a mapping"

/-- The structured-data payload of the spec scenario for the normalizer. -/
def payloadScenario : List (String × Json) :=
  [("criticsScore", .obj [("scorePercent", .num 87), ("reviewCount", .num 120)]),
   ("audienceScore", .obj [("scorePercent", .num 91)])]

/-! ## Flattening to a CSV row -/

/-- An `ExportRow`: an ordered list of column name / cell value pairs
(a Python dict preserves insertion order). -/
abbrev Row := List (String × Json)

/-- The helper `g` inside `flatten_for_csv`: walk a key path with `.get`,
returning the default `None` as soon as the current value is not a mapping or
a key is absent. -/
def getPath : Json → List String → Json
  | cur, [] => cur
  | .obj fs, p :: ps => getPath ((Json.lookup fs p).getD .null) ps
  | _, _ :: _ => .null

/-- The five breakdown columns emitted for one overlay bucket, with the given
column-name prefix. -/
def bucketCols (record : Json) (key pfx : String) : Row :=
  [(pfx ++ "_score_percent", getPath record ["overlay", key, "scorePercent"]),
   (pfx ++ "_review_count", getPath record ["overlay", key, "reviewCount"]),
   (pfx ++ "_liked", getPath record ["overlay", key, "likedCount"]),
   (pfx ++ "_not_liked", getPath record ["overlay", key, "notLikedCount"]),
   (pfx ++ "_avg_rating", getPath record ["overlay", key, "averageRating"])]

/-- `flatten_for_csv` from the source.  The first three cells use bracket
access (`record["timestamp_et"]` and so on), which raises on a record missing
those keys; every other cell goes through the defaulting helper `g`. -/
def flatten_for_csv (record : Json) : Except String Row :=
  match record.index "timestamp_et" with
  | .error e => .error e
  | .ok ts =>
    match record.index "slug" with
    | .error e => .error e
    | .ok sl =>
      match record.index "url" with
      | .error e => .error e
      | .ok u =>
        .ok ([("timestamp_et", ts), ("slug", sl), ("url", u),
          ("critics_score_percent", getPath record ["criticsScore", "scorePercent"]),
          ("critics_review_count", getPath record ["criticsScore", "reviewCount"]),
          ("critics_liked", getPath record ["criticsScore", "likedCount"]),
          ("critics_not_liked", getPath record ["criticsScore", "notLikedCount"]),
          ("critics_avg_rating", getPath record ["criticsScore", "averageRating"]),
          ("audience_score_percent", getPath record ["audienceScore", "scorePercent"]),
          ("audience_review_count", getPath record ["audienceScore", "reviewCount"]),
          ("audience_liked", getPath record ["audienceScore", "likedCount"]),
          ("audience_not_liked", getPath record ["audienceScore", "notLikedCount"]),
          ("audience_avg_rating", getPath record ["audienceScore", "averageRating"]),
          ("audience_score_type", getPath record ["audienceScore", "scoreType"])]
         ++ bucketCols record "criticsAll" "critics_all"
         ++ bucketCols record "criticsTop" "critics_top"
         ++ bucketCols record "audienceAll" "audience_all"
         ++ bucketCols record "audienceVerified" "audience_verified")

/-- The fixed column set of the tabular export, in order. -/
def csvColumns : List String :=
  ["timestamp_et", "slug", "url",
   "critics_score_percent", "critics_review_count", "critics_liked",
   "critics_not_liked", "critics_avg_rating",
   "audience_score_percent", "audience_review_count", "audience_liked",
   "audience_not_liked", "audience_avg_rating", "audience_score_type",
   "critics_all_score_percent", "critics_all_review_count", "critics_all_liked",
   "critics_all_not_liked", "critics_all_avg_rating",
   "critics_top_score_percent", "critics_top_review_count", "critics_top_liked",
   "critics_top_not_liked", "critics_top_avg_rating",
   "audience_all_score_percent", "audience_all_review_count", "audience_all_liked",
   "audience_all_not_liked", "audience_all_avg_rating",
   "audience_verified_score_percent", "audience_verified_review_count",
   "audience_verified_liked", "audience_verified_not_liked",
   "audience_verified_avg_rating"]

/-! ## The browser page and interstitial dismissal -/

/-- The outcomes of the Playwright page operations used by the script.  Each
field gives the result of one kind of interaction; `Except.error` models the
operation raising (timeout, detached element, and so on). -/
structure Page where
  clickRole : String → String → Except String Unit
  pressKey : String → Except String Unit
  locCount : String → Except String Nat
  locClick : String → Except String Unit
  wheel : Nat → Except String Unit
  evalScroll : Nat → Except String Unit

/-- The affirmative/dismissal label vocabulary tried by `close_popups`. -/
def popupTexts : List String :=
  ["Accept", "Accept All", "I Agree", "Agree", "OK", "Got it", "Close"]

/-- The fixed close-control selector list tried by `close_popups`. -/
def closeSelectors : List String :=
  ["button[aria-label=\x27Close\x27]",
   "button[aria-label=\x27close\x27]",
   "button[title=\x27Close\x27]",
   "button[title=\x27close\x27]",
   "[data-qa=\x27modal-close\x27]",
   "[data-testid=\x27close-button\x27]",
   "button:has-text(\x27×\x27)",
   "button:has-text(\x27✕\x27)",
   "button:has-text(\x27X\x27)"]

/-- `try_click_by_text` from the source: for each label try a button click and
then a link click, each failure swallowed, stopping at the first success. -/
def try_click_by_text (page : Page) : List String → Bool
  | [] => false
  | t :: rest =>
    match page.clickRole "button" t with
    | .ok _ => true
    | .error _ =>
      match page.clickRole "link" t with
      | .ok _ => true
      | .error _ => try_click_by_text page rest

/-- The selector loop of `close_popups`: count the candidates, click the first
present one and stop; any raise in an iteration is swallowed and the loop
moves on to the next selector. -/
def closeSelectorLoop (page : Page) : List String → Except String Unit
  | [] => .ok ()
  | sel :: rest =>
    match page.locCount sel with
    | .error _ => closeSelectorLoop page rest
    | .ok n =>
      if n > 0 then
        match page.locClick sel with
        | .ok _ => .ok ()
        | .error _ => closeSelectorLoop page rest
      else closeSelectorLoop page rest

/-- `close_popups` from the source: label-vocabulary clicks, then Escape
(its raise swallowed), then the close-control selector loop. -/
def close_popups (page : Page) : Except String Unit :=
  let _ := try_click_by_text page popupTexts
  let _ := match page.pressKey "Escape" with
    | .ok _ => ()
    | .error _ => ()
  closeSelectorLoop page closeSelectors

/-- `scroll_by` from the source: a mouse-wheel scroll whose failure falls back
to a JavaScript scroll, which is not guarded. -/
def scroll_by (page : Page) (pixels : Nat) : Except String Unit :=
  match page.wheel pixels with
  | .ok _ => .ok ()
  | .error _ => page.evalScroll pixels

/-! ## Structured-data extraction -/

/-- The state of the `script#media-scorecard-json` element on the page:
absent, or present with its raw text content. -/
inductive ScriptSlot where
  | absent
  | present (rawText : String)

/-- `get_media_scorecard_json` from the source.  `parse` stands for
`json.loads`; its `none` result models a `JSONDecodeError`. -/
def get_media_scorecard_json (slot : ScriptSlot) (parse : String → Option Json) :
    Except String Json :=
  match slot with
  | .absent => .error "media-scorecard-json script tag not found"
  | .present rawText =>
    let raw := pyStrip rawText
    if raw == "" then .error "media-scorecard-json script tag is empty"
    else
      match parse raw with
      | some j => .ok j
      | none => .error "json.decoder.JSONDecodeError: Expecting value"

/-! ## The per-URL pipeline and the run -/

/-- Viewport height from the source configuration. -/
def VIEWPORT_HEIGHT : Nat := 900

/-- `SCROLL_PIXELS = VIEWPORT["height"] // 3` from the source. -/
def SCROLL_PIXELS : Nat := VIEWPORT_HEIGHT / 3

/-- The screenshot toggle, `False` in the source. -/
def TAKE_SCREENSHOTS : Bool := false

/-- One observable page operation performed while processing a URL. -/
inductive Action where
  | goto (url : String)
  | waitTimeout (ms : Nat)
  | closePopups
  | scroll (px : Nat)
  | extract
  | writeJson (path : String)
deriving Repr, DecidableEq

/-- The environment one URL's processing runs against: the page interaction
outcomes, whether navigation succeeds, the state of the payload element, the
behavior of `json.loads`, and whether the JSON artifact write succeeds. -/
structure PageModel where
  page : Page
  navOk : Bool
  slot : ScriptSlot
  parse : String → Option Json
  writeOk : Bool

/-- Path of the per-URL JSON artifact. -/
def dataPath (stamp slug : String) : String :=
  "data/" ++ stamp ++ "__" ++ slug ++ ".json"

/-- Path of the per-run CSV export. -/
def csvPath (stamp : String) : String :=
  "csv/" ++ stamp ++ "__rt_scores.csv"

/-- The page operations performed up to (and including) the post-scroll wait
when navigation succeeded: the two `close_popups` invocations with their
surrounding fixed delays, then the scroll. -/
def preTrace (url : String) : List Action :=
  [.goto url, .waitTimeout 1200, .closePopups, .waitTimeout 700, .closePopups,
   .scroll SCROLL_PIXELS, .waitTimeout 700]

/-- The body of the per-URL `try` block in `main`: navigate, dismiss popups
twice, scroll, extract the payload, normalize, write the JSON artifact and
produce the CSV row.  Returns the performed actions and either the row or the
raised error. -/
def processUrl (stamp url : String) (pm : PageModel) :
    List Action × Except String Row :=
  if pm.navOk then
    match close_popups pm.page with
    | .error e => ([.goto url, .waitTimeout 1200, .closePopups], .error e)
    | .ok _ =>
      match close_popups pm.page with
      | .error e =>
        ([.goto url, .waitTimeout 1200, .closePopups, .waitTimeout 700, .closePopups],
         .error e)
      | .ok _ =>
        match scroll_by pm.page SCROLL_PIXELS with
        | .error e => (preTrace url, .error e)
        | .ok _ =>
          match get_media_scorecard_json pm.slot pm.parse with
          | .error e => (preTrace url ++ [.extract], .error e)
          | .ok (.obj data) =>
            match normalize_scorecard url (slugify url) stamp data with
            | .error e => (preTrace url ++ [.extract], .error e)
            | .ok record =>
              if pm.writeOk then
                match flatten_for_csv record with
                | .ok row =>
                  (preTrace url ++ [.extract, .writeJson (dataPath stamp (slugify url))],
                   .ok row)
                | .error e =>
                  (preTrace url ++ [.extract, .writeJson (dataPath stamp (slugify url))],
                   .error e)
              else
                (preTrace url ++ [.extract], .error "OSError: could not write JSON artifact")
          | .ok _ =>
            (preTrace url ++ [.extract],
             .error "AttributeError: parsed payload does not support key lookup")
  else ([.goto url], .error ("navigation failed: " ++ url))

/-- One per-URL console report. -/
inductive LogEntry where
  | loading (url : String)
  | saved (path : String)
  | errored (url : String) (msg : String)
  | savedCsv (path : String)
deriving Repr, DecidableEq

/-- The run state: console log, accumulated CSV rows, and the written CSV file
(header and rows), if any. -/
structure RunResult where
  log : List LogEntry
  rows : List Row
  csvFile : Option (List String × List Row)
deriving Repr

/-- One iteration of the URL loop in `main`: the per-URL `try` body with its
`except` boundary, which logs the error and moves on. -/
def stepUrl (stamp : String) (pm : String → PageModel) (acc : RunResult)
    (url : String) : RunResult :=
  match (processUrl stamp url (pm url)).2 with
  | .ok row =>
    ⟨acc.log ++ [.loading url, .saved (dataPath stamp (slugify url))],
     acc.rows ++ [row], acc.csvFile⟩
  | .error e => ⟨acc.log ++ [.loading url, .errored url e], acc.rows, acc.csvFile⟩

/-- The tail of `main`: after the loop, write one CSV per run when at least
one row was produced, with the header taken from the first row's keys. -/
def runBody (stamp : String) (pm : String → PageModel) (urls : List String) :
    RunResult :=
  let r := urls.foldl (stepUrl stamp pm) ⟨[], [], none⟩
  match r.rows with
  | [] => r
  | row :: _ =>
    ⟨r.log ++ [.savedCsv (csvPath stamp)], r.rows, some (row.map Prod.fst, r.rows)⟩

/-- `main` from the source: read the URL file (its absence raises before any
URL is processed), process every URL, then export. -/
def main (urlsFile : Option (List String)) (pm : String → PageModel)
    (stamp : String) : Except String RunResult :=
  match read_urls urlsFile with
  | .error e => .error e
  | .ok urls => .ok (runBody stamp pm urls)

/-! ## Concrete fixture environments -/

/-- A page on which no control matches anything: every click errors, Escape is
accepted, every locator counts zero, scrolling works. -/
def pageInert : Page :=
  ⟨fun _ _ => .error "no matching control", fun _ => .ok (),
   fun _ => .ok 0, fun _ => .error "element not found", fun _ => .ok (),
   fun _ => .ok ()⟩

/-- A `json.loads` that recognizes exactly the fixture text and yields the
scenario payload. -/
def parseFixture : String → Option Json :=
  fun s => if s == "fixture-payload" then some (.obj payloadScenario) else none

/-- A `json.loads` that parses nothing. -/
def parseNone : String → Option Json := fun _ => none

/-- A URL environment in which every stage succeeds. -/
def pmGood : PageModel :=
  ⟨pageInert, true, .present "fixture-payload", parseFixture, true⟩

/-- Like `pmGood`, but the JSON-artifact write fails. -/
def pmNoWrite : PageModel :=
  ⟨pageInert, true, .present "fixture-payload", parseFixture, false⟩

/-- Like `pmGood`, but the payload script element is absent. -/
def pmNoScript : PageModel := ⟨pageInert, true, .absent, parseNone, true⟩

/-! ## Visual-capture mode

Modelled from the spec: the visual-capture fallback chain of the Extractor
((a) region shot of the resolved target, (b) fixed clip shifted by the current
scroll offset when no target was resolved, (c) whole-viewport fallback) is not
implemented in `src/screenshot_rt.py`, which only takes a plain optional
viewport screenshot; the definitions below follow the spec's description of
the missing variant. -/

/-- Modelled from the spec: the configured fixed clip region (origin and
size), used only when no target region was resolved. -/
structure ClipConfig where
  x : Int
  y : Int
  w : Int
  h : Int

/-- Modelled from the spec: which image a visual capture produced. -/
inductive ShotResult where
  | region (handle : Nat)
  | clipped (x y w h : Int)
  | viewport
deriving Repr, DecidableEq

/-- Modelled from the spec: the state the visual capture runs against — the
`ResolvedTarget` (`none` when no strategy matched), whether each capture
primitive succeeds, the configured clip and the current scroll offset. -/
structure VisualEnv where
  target : Option Nat
  regionShotOk : Bool
  clip : ClipConfig
  scrollX : Int
  scrollY : Int
  clipShotOk : Bool
  viewportShotOk : Bool

/-- Modelled from the spec: the visual-capture fallback chain.  With a
resolved target, capture its region (scrolled into view); on failure fall back
to the viewport.  With no target, capture the fixed clip with the scroll
offset added to its origin; on failure fall back to the viewport.  A failure
of the final viewport attempt is the fatal per-URL error. -/
def visual_capture (env : VisualEnv) : Except String ShotResult :=
  match env.target with
  | some handle =>
    if env.regionShotOk then .ok (.region handle)
    else if env.viewportShotOk then .ok .viewport
    else .error "screenshot failed"
  | none =>
    if env.clipShotOk then
      .ok (.clipped (env.clip.x + env.scrollX) (env.clip.y + env.scrollY)
        env.clip.w env.clip.h)
    else if env.viewportShotOk then .ok .viewport
    else .error "screenshot failed"

/-- A capture state with a resolved target whose region shot succeeds. -/
def visualEnvRegion : VisualEnv := ⟨some 5, true, ⟨3, 5, 30, 40⟩, 7, 15, true, true⟩

/-- A capture state with no resolved target whose clip shot succeeds. -/
def visualEnvClip : VisualEnv := ⟨none, true, ⟨3, 5, 30, 40⟩, 7, 15, true, true⟩

/-! ## Run-level characterization lemmas -/

/-- The outcome of one URL's processing in a run. -/
def urlOutcome (stamp : String) (pm : String → PageModel) (u : String) :
    Except String Row := (processUrl stamp u (pm u)).2

/-- The console entries produced for one URL. -/
def urlLog (stamp : String) (pm : String → PageModel) (u : String) : List LogEntry :=
  match urlOutcome stamp pm u with
  | .ok _ => [.loading u, .saved (dataPath stamp (slugify u))]
  | .error e => [.loading u, .errored u e]

/-- The console entries of the whole URL loop. -/
def runLogs (stamp : String) (pm : String → PageModel) : List String → List LogEntry
  | [] => []
  | u :: us => urlLog stamp pm u ++ runLogs stamp pm us

/-- Whether one URL's processing failed. -/
def urlFailed (stamp : String) (pm : String → PageModel) (u : String) : Bool :=
  match urlOutcome stamp pm u with
  | .ok _ => false
  | .error _ => true

/-- The URLs reported as being loaded, in order. -/
def loadedUrls (log : List LogEntry) : List String :=
  log.filterMap (fun e => match e with | .loading u => some u | _ => none)

/-- The URLs reported as having errored, in order. -/
def erroredUrls (log : List LogEntry) : List String :=
  log.filterMap (fun e => match e with | .errored u _ => some u | _ => none)

/-- Any row that `flatten_for_csv` succeeds in producing has exactly the fixed
column set, whatever the shape of the record. -/
theorem flatten_for_csv_cols (record : Json) (row : Row)
    (h : flatten_for_csv record = .ok row) : row.map Prod.fst = csvColumns := by
  unfold flatten_for_csv at h
  split at h
  · exact absurd h (by simp)
  · split at h
    · exact absurd h (by simp)
    · split at h
      · exact absurd h (by simp)
      · injection h with h
        subst h
        rfl

/-- The selector loop never propagates an error, whatever the page does. -/
theorem closeSelectorLoop_ok (page : Page) (sels : List String) :
    closeSelectorLoop page sels = .ok () := by
  induction sels with
  | nil => rfl
  | cons sel rest ih =>
    simp only [closeSelectorLoop]
    cases page.locCount sel with
    | error e => exact ih
    | ok n =>
      simp only []
      split
      · cases page.locClick sel with
        | ok u => rfl
        | error e => exact ih
      · exact ih

/-- `close_popups` completes normally for every page state. -/
theorem close_popups_ok (page : Page) : close_popups page = .ok () := by
  simp only [close_popups]
  exact closeSelectorLoop_ok page closeSelectors

theorem foldl_stepUrl (stamp : String) (pm : String → PageModel) :
    ∀ (urls : List String) (acc : RunResult),
      urls.foldl (stepUrl stamp pm) acc =
        ⟨acc.log ++ runLogs stamp pm urls,
         acc.rows ++ urls.filterMap (fun u => (urlOutcome stamp pm u).toOption),
         acc.csvFile⟩ := by
  intro urls
  induction urls with
  | nil => intro acc; simp [runLogs]
  | cons u us ih =>
    intro acc
    rw [List.foldl_cons, ih]
    simp only [stepUrl, runLogs, List.filterMap_cons, urlOutcome]
    cases h : (processUrl stamp u (pm u)).2 with
    | ok row =>
      simp [urlLog, urlOutcome, h, Except.toOption, List.append_assoc]
    | error e =>
      simp [urlLog, urlOutcome, h, Except.toOption, List.append_assoc]

theorem runBody_eq (stamp : String) (pm : String → PageModel) (urls : List String) :
    runBody stamp pm urls =
      (match urls.filterMap (fun u => (urlOutcome stamp pm u).toOption) with
       | [] => ⟨runLogs stamp pm urls, [], none⟩
       | row :: rest =>
         ⟨runLogs stamp pm urls ++ [.savedCsv (csvPath stamp)], row :: rest,
          some (row.map Prod.fst, row :: rest)⟩) := by
  unfold runBody
  rw [foldl_stepUrl]
  simp only [List.nil_append]
  cases urls.filterMap (fun u => (urlOutcome stamp pm u).toOption) with
  | nil => rfl
  | cons row rest => rfl

theorem loadedUrls_runLogs (stamp : String) (pm : String → PageModel)
    (urls : List String) : loadedUrls (runLogs stamp pm urls) = urls := by
  induction urls with
  | nil => rfl
  | cons u us ih =>
    simp only [runLogs, loadedUrls, List.filterMap_append, urlLog]
    cases h : urlOutcome stamp pm u <;>
      simpa [loadedUrls] using ih

theorem erroredUrls_runLogs (stamp : String) (pm : String → PageModel)
    (urls : List String) :
    erroredUrls (runLogs stamp pm urls) = urls.filter (urlFailed stamp pm) := by
  induction urls with
  | nil => rfl
  | cons u us ih =>
    simp only [runLogs, erroredUrls, List.filterMap_append, List.filter_cons, urlLog]
    cases h : urlOutcome stamp pm u with
    | ok row =>
      have hf : urlFailed stamp pm u = false := by simp [urlFailed, h]
      simp only [erroredUrls] at ih
      simp [hf, ih]
    | error e =>
      have hf : urlFailed stamp pm u = true := by simp [urlFailed, h]
      simp only [erroredUrls] at ih
      simp [hf, ih]

theorem loadedUrls_append_savedCsv (log : List LogEntry) (p : String) :
    loadedUrls (log ++ [.savedCsv p]) = loadedUrls log := by
  simp [loadedUrls]

theorem erroredUrls_append_savedCsv (log : List LogEntry) (p : String) :
    erroredUrls (log ++ [.savedCsv p]) = erroredUrls log := by
  simp [erroredUrls]

theorem toOption_eq_some {ε α : Type} (e : Except ε α) (a : α)
    (h : e.toOption = some a) : e = .ok a := by
  cases e with
  | ok b => simp [Except.toOption] at h; simp [h]
  | error _ => simp [Except.toOption] at h

/-- A row produced by the per-URL pipeline is always a `flatten_for_csv`
output, hence has the fixed column set. -/
theorem processUrl_ok_cols (stamp url : String) (pm : PageModel) (row : Row)
    (h : (processUrl stamp url pm).2 = .ok row) : row.map Prod.fst = csvColumns := by
  simp only [processUrl, close_popups_ok] at h
  by_cases hnav : pm.navOk = true
  · simp only [hnav, if_true] at h
    cases hs : scroll_by pm.page SCROLL_PIXELS with
    | error e => rw [hs] at h; simp at h
    | ok u =>
      rw [hs] at h
      cases hg : get_media_scorecard_json pm.slot pm.parse with
      | error e => rw [hg] at h; simp at h
      | ok raw =>
        rw [hg] at h
        cases raw with
        | obj data =>
          simp only [] at h
          cases hn : normalize_scorecard url (slugify url) stamp data with
          | error e => rw [hn] at h; simp at h
          | ok record =>
            rw [hn] at h
            by_cases hw : pm.writeOk = true
            · simp only [hw, if_true] at h
              cases hf : flatten_for_csv record with
              | ok row0 =>
                rw [hf] at h
                simp at h
                rw [← h]
                exact flatten_for_csv_cols record row0 hf
              | error e => rw [hf] at h; simp at h
            · simp only [hw, if_false, Bool.false_eq_true] at h; simp at h
        | null => simp at h
        | bool b => simp at h
        | num n => simp at h
        | str s => simp at h
        | arr xs => simp at h
  · simp only [hnav, if_false, Bool.false_eq_true] at h; simp at h

/-- When navigation succeeded, the per-URL action trace starts with the fixed
stabilization sequence, whatever happens afterwards. -/
theorem processUrl_trace (stamp url : String) (pm : PageModel)
    (h : pm.navOk = true) :
    ∃ t, (processUrl stamp url pm).1 = preTrace url ++ t := by
  simp only [processUrl, close_popups_ok, h, if_true]
  repeat' split
  all_goals first
    | exact ⟨[], (List.append_nil _).symm⟩
    | exact ⟨_, rfl⟩

/-! ## Claim theorems -/

/-- C1: `normalize_scorecard` is claimed total for every input mapping, but
the code raises `AttributeError` when a section value is a truthy non-mapping
(`data.get("criticsScore") or {}` keeps it and `pick` calls `.get` on it);
on the empty mapping it does return a fully-shaped record. -/
theorem normalize_scorecard_raises_on_scalar_section :
    normalize_scorecard "https://example.test/m/x" "x" "2025-01-01_00-00-00_ET"
        [("criticsScore", Json.num 87)] =
      .error "AttributeError: object has no attribute get" ∧
    (normalize_scorecard "https://example.test/m/x" "x"
        "2025-01-01_00-00-00_ET" []).toOption.isSome = true :=
  ⟨rfl, rfl⟩

/-- C2: normalizing the scenario payload yields, for any url/slug/timestamp,
a record whose critics bucket has `scorePercent = 87` and an explicit null
`likedCount`, whose audience bucket has `scorePercent = 91`, and whose
overlay section is the empty mapping. -/
theorem normalize_scorecard_structured_payload_scenario (url slug stamp : String) :
    ∃ cfs afs : List (String × Json),
      normalize_scorecard url slug stamp payloadScenario =
        .ok (.obj [("url", .str url), ("slug", .str slug), ("timestamp_et", .str stamp),
          ("criticsScore", .obj cfs), ("audienceScore", .obj afs), ("overlay", .obj []),
          ("mediaType", .null), ("primaryImageUrl", .null), ("description", .null)]) ∧
      Json.lookup cfs "scorePercent" = some (.num 87) ∧
      Json.lookup cfs "likedCount" = some .null ∧
      Json.lookup afs "scorePercent" = some (.num 91) := by
  refine ⟨_, _, rfl, rfl, rfl, rfl⟩

/-- C6: in structured-data mode, an absent payload element, a present element
with blank text, and unparseable text each produce an error for that URL; an
absent element makes the whole per-URL pipeline fail with that error (there is
no retry). -/
theorem scorecard_extraction_failure_modes :
    (∀ parse : String → Option Json,
      get_media_scorecard_json .absent parse =
        .error "media-scorecard-json script tag not found") ∧
    (∀ (rawText : String) (parse : String → Option Json), pyStrip rawText = "" →
      get_media_scorecard_json (.present rawText) parse =
        .error "media-scorecard-json script tag is empty") ∧
    (∀ (rawText : String) (parse : String → Option Json),
      pyStrip rawText ≠ "" → parse (pyStrip rawText) = none →
      get_media_scorecard_json (.present rawText) parse =
        .error "json.decoder.JSONDecodeError: Expecting value") ∧
    (∀ (stamp url : String) (pm : PageModel), pm.navOk = true →
      scroll_by pm.page SCROLL_PIXELS = .ok () → pm.slot = .absent →
      (processUrl stamp url pm).2 =
        .error "media-scorecard-json script tag not found") := by
  refine ⟨fun parse => rfl, ?_, ?_, ?_⟩
  · intro rawText parse hblank
    simp [get_media_scorecard_json, hblank]
  · intro rawText parse hblank hparse
    simp [get_media_scorecard_json, hblank, hparse]
  · intro stamp url pm hnav hscroll hslot
    simp [processUrl, close_popups_ok, hnav, hscroll, hslot, get_media_scorecard_json]

/-- Witness for C6 at concrete inputs. -/
theorem scorecard_extraction_failure_modes_witness :
    get_media_scorecard_json .absent parseNone =
      .error "media-scorecard-json script tag not found" ∧
    get_media_scorecard_json (.present "   ") parseNone =
      .error "media-scorecard-json script tag is empty" ∧
    get_media_scorecard_json (.present "not json") parseNone =
      .error "json.decoder.JSONDecodeError: Expecting value" ∧
    (processUrl "2025-01-01_00-00-00_ET" "https://example.test/m/x" pmNoScript).2 =
      .error "media-scorecard-json script tag not found" :=
  ⟨scorecard_extraction_failure_modes.1 parseNone,
   scorecard_extraction_failure_modes.2.1 "   " parseNone rfl,
   scorecard_extraction_failure_modes.2.2.1 "not json" parseNone (by decide) rfl,
   scorecard_extraction_failure_modes.2.2.2 "2025-01-01_00-00-00_ET"
     "https://example.test/m/x" pmNoScript rfl rfl rfl⟩

/-- C7: `close_popups` completes normally on every page state, including one
with no matching control at all; and on every URL whose navigation succeeded
it is invoked twice, separated by a fixed delay. -/
theorem close_popups_total_and_invoked_twice :
    (∀ page : Page, close_popups page = .ok ()) ∧
    (∀ (stamp url : String) (pm : PageModel), pm.navOk = true →
      ∃ pre mid post, (processUrl stamp url pm).1 =
        pre ++ [Action.closePopups] ++ mid ++ [Action.closePopups] ++ post ∧
        Action.waitTimeout 700 ∈ mid) := by
  refine ⟨close_popups_ok, ?_⟩
  intro stamp url pm h
  obtain ⟨t, ht⟩ := processUrl_trace stamp url pm h
  refine ⟨[.goto url, .waitTimeout 1200], [.waitTimeout 700],
    [.scroll SCROLL_PIXELS, .waitTimeout 700] ++ t, ?_, by simp⟩
  simp [ht, preTrace]

/-- Witness for C7 at a concrete page and URL environment. -/
theorem close_popups_total_and_invoked_twice_witness :
    pmGood.navOk = true ∧
    (∃ pre mid post,
      (processUrl "2025-01-01_00-00-00_ET" "https://example.test/m/sample_movie"
        pmGood).1 =
        pre ++ [Action.closePopups] ++ mid ++ [Action.closePopups] ++ post ∧
        Action.waitTimeout 700 ∈ mid) :=
  ⟨rfl, close_popups_total_and_invoked_twice.2 "2025-01-01_00-00-00_ET"
    "https://example.test/m/sample_movie" pmGood rfl⟩

/-- C8: `read_urls` raises on a missing file (and `main` then aborts before
any URL is processed), keeps only non-blank non-comment lines — on the
scenario list only the URL line survives and its slug is `sample_movie` —
and inserting blank or comment lines anywhere never changes the result. -/
theorem read_urls_filters_and_missing_file_fatal :
    (∃ e, read_urls none = .error e) ∧
    (∀ (pm : String → PageModel) (stamp : String), ∃ e, main none pm stamp = .error e) ∧
    read_urls (some ["https://example.test/m/sample_movie", "# skip me"]) =
      .ok ["https://example.test/m/sample_movie"] ∧
    slugify "https://example.test/m/sample_movie" = "sample_movie" ∧
    (∀ la lb : List String,
      read_urls (some (la ++ ["", "   ", "# comment"] ++ lb)) =
        read_urls (some (la ++ lb))) := by
  refine ⟨⟨_, rfl⟩, fun pm stamp => ⟨_, rfl⟩, rfl, rfl, ?_⟩
  intro la lb
  simp only [read_urls, filteredLines, List.map_append, List.filter_append]
  have hmid : (["", "   ", "# comment"].map pyStrip).filter
      (fun l => !(l == "" || startsWithHash l)) = [] := rfl
  rw [hmid]
  simp

/-- C10: `slugify` never returns the empty string, preserves runs of hyphens
and underscores while collapsing each run of other non-identifier characters
to one underscore, takes the last path segment, and yields `"movie"` exactly
when that segment collapses to nothing. -/
theorem slugify_nonempty_and_collapsing :
    (∀ url : String, slugify url ≠ "") ∧
    slugify "https://example.test/m/A+B--c__d!" = "A_B--c__d_" ∧
    slugify "https://x/a/b" = "b" ∧
    slugify "///" = "movie" := by
  refine ⟨?_, rfl, rfl, rfl⟩
  intro url
  simp only [slugify]
  split
  · simp
  · rename_i hne
    simpa using hne

/-- C4: the run never aborts because of a per-URL error: for every URL list,
page behavior and timestamp, `main` completes normally, every kept URL is
attempted in order, and exactly the failing URLs are logged as errors. -/
theorem per_url_errors_caught_and_run_continues
    (lines : List String) (pm : String → PageModel) (stamp : String) :
    ∃ r, main (some lines) pm stamp = .ok r ∧
      loadedUrls r.log = filteredLines lines ∧
      erroredUrls r.log = (filteredLines lines).filter (urlFailed stamp pm) := by
  refine ⟨runBody stamp pm (filteredLines lines), rfl, ?_, ?_⟩
  · rw [runBody_eq]
    split <;> simp [loadedUrls_append_savedCsv, loadedUrls_runLogs]
  · rw [runBody_eq]
    split <;> simp [erroredUrls_append_savedCsv, erroredUrls_runLogs]

/-- C3 (amended): the tabular rows of a run are exactly, in order, the rows of
the URLs whose whole per-URL pipeline — through the normalizer and the
subsequent JSON-artifact write — succeeded, and every row has the fixed
column set regardless of which sections were present. -/
theorem rows_match_fully_successful_urls
    (lines : List String) (pm : String → PageModel) (stamp : String)
    (_hne : filteredLines lines ≠ []) :
    ∃ r, main (some lines) pm stamp = .ok r ∧
      r.rows = (filteredLines lines).filterMap
        (fun u => (urlOutcome stamp pm u).toOption) ∧
      ∀ row ∈ r.rows, row.map Prod.fst = csvColumns := by
  have hrows : (runBody stamp pm (filteredLines lines)).rows
      = (filteredLines lines).filterMap (fun u => (urlOutcome stamp pm u).toOption) := by
    rw [runBody_eq]
    split
    · rename_i heq; simp [heq]
    · rename_i row rest heq; simp [heq]
  refine ⟨runBody stamp pm (filteredLines lines), rfl, hrows, ?_⟩
  intro row hrow
  rw [hrows] at hrow
  obtain ⟨u, _, hsome⟩ := List.mem_filterMap.mp hrow
  exact processUrl_ok_cols stamp u (pm u) row (toOption_eq_some _ _ hsome)

/-- Witness for C3 (amended) at a concrete run in which the single URL
succeeds end to end. -/
theorem rows_match_fully_successful_urls_witness :
    ∃ r, main (some ["https://example.test/m/sample_movie"]) (fun _ => pmGood)
        "2025-01-01_00-00-00_ET" = .ok r ∧
      r.rows = ["https://example.test/m/sample_movie"].filterMap
        (fun u => (urlOutcome "2025-01-01_00-00-00_ET" (fun _ => pmGood) u).toOption) ∧
      ∀ row ∈ r.rows, row.map Prod.fst = csvColumns :=
  rows_match_fully_successful_urls ["https://example.test/m/sample_movie"]
    (fun _ => pmGood) "2025-01-01_00-00-00_ET" (by decide)

/-- C3 counterexample: in a run whose only URL completes the normalizer
successfully but whose JSON-artifact write then fails, the caught per-URL
error means the export gets no row for that URL, so the run has zero
`ExportRow`s despite a successful Normalizer step. -/
theorem rows_missing_despite_normalizer_success :
    (main (some ["https://example.test/m/sample_movie"]) (fun _ => pmNoWrite)
        "2025-01-01_00-00-00_ET").map RunResult.rows = .ok [] ∧
    (normalize_scorecard "https://example.test/m/sample_movie" "sample_movie"
        "2025-01-01_00-00-00_ET" payloadScenario).toOption.isSome = true :=
  ⟨rfl, rfl⟩

/-- C5: the run always completes normally, and the CSV file of a run is
written exactly when at least one row was produced, once, with its header
taken from the first row's keys. -/
theorem csv_written_iff_rows_nonempty
    (lines : List String) (pm : String → PageModel) (stamp : String) :
    ∃ r, main (some lines) pm stamp = .ok r ∧
      r.csvFile = (match r.rows with
        | [] => none
        | row :: _ => some (row.map Prod.fst, r.rows)) := by
  refine ⟨runBody stamp pm (filteredLines lines), rfl, ?_⟩
  rw [runBody_eq]
  split
  · rfl
  · rfl

/-- C9 (modelled from the spec, the visual-capture variant being absent from
`src/`): the capture is the resolved target's region when one was resolved and
its shot succeeds; a clipped capture happens only when no target was resolved
and its origin is the configured clip origin plus the scroll offset; the
viewport is captured only when the applicable earlier attempt failed; and the
capture errors exactly when the final viewport fallback itself fails after the
earlier applicable attempt failed. -/
theorem visual_capture_fallback_chain (env : VisualEnv) :
    (∀ handle, env.target = some handle → env.regionShotOk = true →
      visual_capture env = .ok (.region handle)) ∧
    (∀ x y w h, visual_capture env = .ok (.clipped x y w h) →
      env.target = none ∧ x = env.clip.x + env.scrollX ∧
        y = env.clip.y + env.scrollY) ∧
    (visual_capture env = .ok .viewport →
      ((∃ handle, env.target = some handle) ∧ env.regionShotOk = false) ∨
        (env.target = none ∧ env.clipShotOk = false)) ∧
    ((∃ e, visual_capture env = .error e) ↔
      env.viewportShotOk = false ∧
        (((∃ handle, env.target = some handle) ∧ env.regionShotOk = false) ∨
          (env.target = none ∧ env.clipShotOk = false))) := by
  cases htarget : env.target with
  | some handle =>
    cases hr : env.regionShotOk <;> cases hv : env.viewportShotOk <;>
      simp [visual_capture, htarget, hr, hv]
  | none =>
    cases hc : env.clipShotOk <;> cases hv : env.viewportShotOk <;>
      simp [visual_capture, htarget, hc, hv] <;>
      exact fun x y w h hx hy _ _ => ⟨hx.symm, hy.symm⟩

/-- Witness for C9: the region branch and the scroll-shifted clip branch at
concrete capture states. -/
theorem visual_capture_fallback_chain_witness :
    visual_capture visualEnvRegion = .ok (.region 5) ∧
    (visualEnvClip.target = none ∧ (10 : Int) = visualEnvClip.clip.x + visualEnvClip.scrollX ∧
      (20 : Int) = visualEnvClip.clip.y + visualEnvClip.scrollY) :=
  ⟨(visual_capture_fallback_chain visualEnvRegion).1 5 rfl rfl,
   (visual_capture_fallback_chain visualEnvClip).2.1 10 20 30 40 rfl⟩

end RtScreens
